import Mathlib

/-!
Shallow embedding of `src/include/crdt/crdt.hpp` (namespace `crdt`):
the grow-only counter `gcounter`, the positive-negative counter
`pncounter`, the grow-only set `grow_only_set` and the two-phase set
`two_phase_set`, instantiated at the default arithmetic unit
`T = uint32_t` (all slot arithmetic is modulo `2^32`).
-/

/-- The modulus of the default arithmetic unit `uint32_t`. -/
def U32 : Nat := 2 ^ 32

/-- `crdt::gcounter<Nodes, uint32_t>`: a fixed array of `Nodes` slots
(`std::array<uint32_t, Nodes> _payload`). -/
@[ext]
structure gcounter (N : Nat) where
  payload : Fin N → Nat

namespace gcounter

variable {N : Nat}

/-- `gcounter::increment(index)`: `if (index < size) _payload[index] += 1;`
(out-of-range indices are silently ignored; `+= 1` on `uint32_t` wraps
modulo `2^32`). -/
def increment (c : gcounter N) (index : Nat) : gcounter N :=
  if index < N then
    ⟨fun i => if i.val = index then (c.payload i + 1) % U32 else c.payload i⟩
  else c

/-- `gcounter::value()`: `std::accumulate(_payload.begin(), _payload.end(), value_type(0))`,
a left fold of wrapping `uint32_t` addition seeded at 0. -/
def value (c : gcounter N) : Nat :=
  (List.ofFn c.payload).foldl (fun acc x => (acc + x) % U32) 0

/-- `gcounter::merge(other)`: `_payload[i] = std::max(_payload[i], other._payload[i])`
for every `i`. -/
def merge (a b : gcounter N) : gcounter N :=
  ⟨fun i => max (a.payload i) (b.payload i)⟩

/-- `gcounter::operator<=`: a running boolean seeded at `false`, updated with
`is_less_than_or_equals &= (_payload[i] <= other._payload[i])` over all slots. -/
def le (a b : gcounter N) : Bool :=
  (List.finRange N).foldl
    (fun is_less_than_or_equals i =>
      is_less_than_or_equals && decide (a.payload i ≤ b.payload i))
    false

/-- Modelled from the spec: "created empty ... at replica initialization",
every slot zero. The source declares `std::array<value_type, size> _payload;`
with no initializer and no constructor, so a default-constructed `gcounter`
has indeterminate slot values; the all-zero initial state exists only in the
spec. -/
def empty : gcounter N := ⟨fun _ => 0⟩

end gcounter

/-- `crdt::pncounter<Nodes, uint32_t>`: two `gcounter`s, one for increments
and one for decrements. -/
@[ext]
structure pncounter (N : Nat) where
  increment_counter : gcounter N
  decrement_counter : gcounter N

namespace pncounter

variable {N : Nat}

/-- `pncounter::increment(index)`: `if (index < size) _increment_counter.increment(index);`. -/
def increment (c : pncounter N) (index : Nat) : pncounter N :=
  if index < N then
    { c with increment_counter := c.increment_counter.increment index }
  else c

/-- `pncounter::decrement(index)`: `if (index < size) _decrement_counter.increment(index);`. -/
def decrement (c : pncounter N) (index : Nat) : pncounter N :=
  if index < N then
    { c with decrement_counter := c.decrement_counter.increment index }
  else c

/-- `pncounter::merge(other)`: component-wise `gcounter::merge`. -/
def merge (a b : pncounter N) : pncounter N :=
  ⟨a.increment_counter.merge b.increment_counter,
   a.decrement_counter.merge b.decrement_counter⟩

/-- Modelled from the spec: `value()` is `inc.value() - dec.value()` and "may be
negative". The source body of `pncounter::value()` calls
`_increment_counter.begin()` and `.end()`, but `gcounter` declares no
`begin`/`end` members, so the source member function is ill-formed and cannot
be instantiated. -/
def specValue (c : pncounter N) : Int :=
  (c.increment_counter.value : Int) - (c.decrement_counter.value : Int)

/-- Modelled from the spec: a freshly initialized `pncounter` holds two all-zero
counters (the source leaves both inner `_payload` arrays uninitialized). -/
def empty : pncounter N := ⟨gcounter.empty, gcounter.empty⟩

end pncounter

/-- `crdt::grow_only_set<T, std::unordered_set<T>>`: a set that only grows.
The underlying `_data` is modelled by its value content, a `Finset`. -/
@[ext]
structure grow_only_set (α : Type) [DecidableEq α] where
  data : Finset α

namespace grow_only_set

variable {α : Type} [DecidableEq α]

/-- `grow_only_set()` default constructor: `_data({})`, the empty set. -/
def empty : grow_only_set α := ⟨∅⟩

/-- `grow_only_set::add(elem)`: `_data.emplace(elem)`. -/
def add (s : grow_only_set α) (x : α) : grow_only_set α := ⟨insert x s.data⟩

/-- `grow_only_set::merge(other)`: `_data.insert(other.begin(), other.end())`,
set union. -/
def merge (a b : grow_only_set α) : grow_only_set α := ⟨a.data ∪ b.data⟩

/-- `grow_only_set::query(elem)`: `std::find(_data.begin(), _data.end(), elem) != _data.end()`,
a linear-scan membership test. -/
def query (s : grow_only_set α) (x : α) : Bool := decide (x ∈ s.data)

end grow_only_set

/-- The algorithm of `std::includes(first1, last1, first2, last2)` with
`operator<`, as invoked by `grow_only_set::includes` on the iteration ranges
of the two `unordered_set`s: it assumes both ranges are sorted and walks them
in lockstep. Modelled over `List Nat` (an iteration order of an
`unordered_set`). -/
def stdIncludes : List Nat → List Nat → Bool
  | _, [] => true
  | [], _ :: _ => false
  | x :: xs, y :: ys =>
    if y < x then false
    else if x < y then stdIncludes xs (y :: ys)
    else stdIncludes xs ys

/-- `crdt::two_phase_set<T>`: a grow-only add set and a grow-only remove set. -/
@[ext]
structure two_phase_set (α : Type) [DecidableEq α] where
  add_set : grow_only_set α
  rem_set : grow_only_set α

namespace two_phase_set

variable {α : Type} [DecidableEq α]

/-- Default-constructed `two_phase_set`: both member `grow_only_set`s are
default-constructed empty. -/
def empty : two_phase_set α := ⟨grow_only_set.empty, grow_only_set.empty⟩

/-- `two_phase_set::add(elem)`: `_add_set.add(elem)`. -/
def add (s : two_phase_set α) (x : α) : two_phase_set α :=
  { s with add_set := s.add_set.add x }

/-- `two_phase_set::remove(elem)`: `if (_add_set.query(elem)) _rem_set.add(elem);`. -/
def remove (s : two_phase_set α) (x : α) : two_phase_set α :=
  if s.add_set.query x then { s with rem_set := s.rem_set.add x } else s

/-- `two_phase_set::merge(other)`: component-wise `grow_only_set::merge`. -/
def merge (a b : two_phase_set α) : two_phase_set α :=
  ⟨a.add_set.merge b.add_set, a.rem_set.merge b.rem_set⟩

/-- Modelled from the spec: `contains(elem)` is
`adds.contains(elem) ∧ ¬removes.contains(elem)`; the source class declares no
`contains` member at all. -/
def specContains (s : two_phase_set α) (x : α) : Bool :=
  s.add_set.query x && !(s.rem_set.query x)

/-- Modelled from the spec: `value()` "returns the materialized logical set =
adds − removes (set difference)"; the source's `two_phase_set::value()` body
is only a `// TODO` comment with no return statement. -/
def specValue (s : two_phase_set α) : Finset α :=
  s.add_set.data \ s.rem_set.data

end two_phase_set

/-! Concrete states used by the theorems. -/

/-- The counter with slot vector `[1, 0, 2]`. -/
def gA : gcounter 3 := ⟨![1, 0, 2]⟩

/-- The counter with slot vector `[0, 3, 1]`. -/
def gB : gcounter 3 := ⟨![0, 3, 1]⟩

/-- A one-slot counter whose slot holds the maximal `uint32_t` value `2^32 - 1`. -/
def gOv : gcounter 1 := ⟨![U32 - 1]⟩

/-- The two-phase set reached by `add(0); remove(0); add(0)` from empty. -/
def tpsSeq : two_phase_set Nat :=
  (((two_phase_set.empty.add 0).remove 0).add 0)

/-- The pncounter reached by three `increment(0)` and one `decrement(0)` from
the spec-modelled empty state. -/
def pnSeq : pncounter 3 :=
  ((((pncounter.empty.increment 0).increment 0).increment 0).decrement 0)

/-! Helper lemmas shared by the claim theorems. -/

/-- A fold of `&&` whose accumulator starts at `false` stays `false`. -/
theorem foldl_and_from_false {α : Type} (l : List α) (g : α → Bool) :
    l.foldl (fun acc x => acc && g x) false = false := by
  induction l with
  | nil => rfl
  | cons x xs ih => simpa using ih

theorem gcounter_merge_idem {N : Nat} (a : gcounter N) : a.merge a = a := by
  ext i
  exact max_self _

theorem gcounter_merge_comm {N : Nat} (a b : gcounter N) : a.merge b = b.merge a := by
  ext i
  exact max_comm _ _

theorem gcounter_merge_assoc {N : Nat} (a b c : gcounter N) :
    (a.merge b).merge c = a.merge (b.merge c) := by
  ext i
  exact max_assoc _ _ _

theorem gset_merge_idem {α : Type} [DecidableEq α] (a : grow_only_set α) :
    a.merge a = a := by
  apply grow_only_set.ext
  exact Finset.union_self _

theorem gset_merge_comm {α : Type} [DecidableEq α] (a b : grow_only_set α) :
    a.merge b = b.merge a := by
  apply grow_only_set.ext
  exact Finset.union_comm _ _

theorem gset_merge_assoc {α : Type} [DecidableEq α] (a b c : grow_only_set α) :
    (a.merge b).merge c = a.merge (b.merge c) := by
  apply grow_only_set.ext
  exact Finset.union_assoc _ _ _

/-! Claim theorems. -/

/-- C1: For every CRDT type of the library with a merge (gcounter, pncounter,
grow_only_set, two_phase_set) and all states a, b, c, merge is idempotent
(a.merge(a) = a under structural equality), commutative, and associative. -/
theorem crdt_merge_laws :
    (∀ (N : Nat) (a b c : gcounter N),
      a.merge a = a ∧ a.merge b = b.merge a ∧ (a.merge b).merge c = a.merge (b.merge c)) ∧
    (∀ (N : Nat) (a b c : pncounter N),
      a.merge a = a ∧ a.merge b = b.merge a ∧ (a.merge b).merge c = a.merge (b.merge c)) ∧
    (∀ (α : Type) [DecidableEq α] (a b c : grow_only_set α),
      a.merge a = a ∧ a.merge b = b.merge a ∧ (a.merge b).merge c = a.merge (b.merge c)) ∧
    (∀ (α : Type) [DecidableEq α] (a b c : two_phase_set α),
      a.merge a = a ∧ a.merge b = b.merge a ∧ (a.merge b).merge c = a.merge (b.merge c)) := by
  refine ⟨fun N a b c =>
      ⟨gcounter_merge_idem a, gcounter_merge_comm a b, gcounter_merge_assoc a b c⟩,
    fun N a b c =>
      ⟨pncounter.ext (gcounter_merge_idem _) (gcounter_merge_idem _),
       pncounter.ext (gcounter_merge_comm _ _) (gcounter_merge_comm _ _),
       pncounter.ext (gcounter_merge_assoc _ _ _) (gcounter_merge_assoc _ _ _)⟩,
    fun α inst a b c =>
      ⟨gset_merge_idem a, gset_merge_comm a b, gset_merge_assoc a b c⟩,
    fun α inst a b c =>
      ⟨two_phase_set.ext (gset_merge_idem _) (gset_merge_idem _),
       two_phase_set.ext (gset_merge_comm _ _) (gset_merge_comm _ _),
       two_phase_set.ext (gset_merge_assoc _ _ _) (gset_merge_assoc _ _ _)⟩⟩

/-- C2: code_bug evidence — gcounter::operator<= seeds its accumulator at
false and only ANDs onto it, so it returns false for every pair of counters;
in particular it returns false on two equal counters and on two all-zero
counters, where the claim requires true. -/
theorem gcounter_le_always_false :
    (∀ (N : Nat) (a b : gcounter N), a.le b = false) ∧
    gA.le gA = false ∧
    gcounter.le (gcounter.empty : gcounter 3) gcounter.empty = false := by
  refine ⟨fun N a b => ?_, rfl, rfl⟩
  exact foldl_and_from_false (List.finRange N) fun i => decide (a.payload i ≤ b.payload i)

/-- C3: code_bug evidence — gcounter::increment with index ≥ N is a silent
no-op: the state is returned unchanged and no InvalidIndex failure is
reported to the caller (the member is void and noexcept). -/
theorem gcounter_increment_oob_noop :
    ∀ (N : Nat) (c : gcounter N) (index : Nat), N ≤ index → c.increment index = c := by
  intro N c index h
  unfold gcounter.increment
  rw [if_neg (by omega)]

/-- Witness for the out-of-range no-op at the concrete input increment(3) on
the N = 3 counter [1, 0, 2]. -/
theorem gcounter_increment_oob_noop_witness :
    (3 ≤ 3) ∧ gA.increment 3 = gA :=
  ⟨by decide, gcounter_increment_oob_noop 3 gA 3 (by decide)⟩

/-- C4: code_bug evidence — the std::includes range algorithm invoked by
grow_only_set::includes answers false on the iteration orders [1, 2] and
[2, 1] even though the second range holds a subset (here: the same set) of
the first, so it is not a membership-based subset predicate; the source
additionally discards this boolean (the member has no return statement). -/
theorem gset_includes_algorithm_counterexample :
    stdIncludes [1, 2] [2, 1] = false ∧ ({2, 1} : Finset Nat) ⊆ {1, 2} :=
  ⟨rfl, by decide⟩

/-- C5: code_bug evidence — with gcounter's own operator<=, neither
a ≤ merge(a, b) nor b ≤ merge(a, b) ever holds: the operator returns false on
every input, in particular on two all-zero one-slot counters. -/
theorem gcounter_le_merge_always_false :
    (∀ (N : Nat) (a b : gcounter N),
      a.le (a.merge b) = false ∧ b.le (a.merge b) = false) ∧
    gcounter.le (gcounter.empty : gcounter 1)
      ((gcounter.empty : gcounter 1).merge gcounter.empty) = false := by
  refine ⟨fun N a b => ⟨?_, ?_⟩, rfl⟩ <;>
    exact foldl_and_from_false (List.finRange N) _

/-- C6: gcounter::merge is pointwise max on slots; merging [1, 0, 2] with
[0, 3, 1] yields [1, 3, 2], whose value() is 6. -/
theorem gcounter_merge_pointwise_max :
    (∀ (N : Nat) (a b : gcounter N) (i : Fin N),
      (a.merge b).payload i = max (a.payload i) (b.payload i)) ∧
    gA.merge gB = ⟨![1, 3, 2]⟩ ∧ (gA.merge gB).value = 6 := by
  refine ⟨fun N a b i => rfl, ?_, by decide⟩
  ext i
  fin_cases i <;> rfl

/-- C7: after add(0); remove(0); add(0) from empty, the source transitions
leave 0 in both the add set and the remove set, so the spec-modelled
contains is false and the spec-modelled value() = adds − removes is empty:
removal is permanent. -/
theorem two_phase_set_remove_permanent :
    tpsSeq.specContains 0 = false ∧ tpsSeq.specValue = ∅ ∧
    tpsSeq.add_set.data = {0} ∧ tpsSeq.rem_set.data = {0} :=
  ⟨by decide, by decide, by decide, by decide⟩

/-- C8: code_bug evidence — with value() modelled from the spec as
inc.value() − dec.value() over the integers (the source member calls
begin()/end(), which gcounter does not declare, so it cannot compile), three
increments and one decrement of slot 0 on a fresh counter give value 2. -/
theorem pncounter_value_example : pnSeq.specValue = 2 := by decide

/-- C9: code_bug evidence — starting from the spec-modelled all-zero state
(the source declares _payload with no initializer, so a freshly constructed
counter's slots are indeterminate), three increments of slot 0 on an N = 3
counter give value() = 3. -/
theorem gcounter_fresh_increment_value :
    ((((gcounter.empty : gcounter 3).increment 0).increment 0).increment 0).value = 3 := by
  decide

/-- C10: with the default uint32_t slots, incrementing a slot that holds
2^32 − 1 wraps it to 0; the one-slot counter [2^32 − 1] has value 2^32 − 1
and, after increment(0), value 0, so value() decreased across an increment. -/
theorem gcounter_increment_wraps :
    (∀ (N : Nat) (c : gcounter N) (i : Fin N),
      c.payload i = U32 - 1 → (c.increment i.val).payload i = 0) ∧
    gOv.value = U32 - 1 ∧ (gOv.increment 0).value = 0 ∧
    (gOv.increment 0).value < gOv.value := by
  refine ⟨fun N c i h => ?_, by decide, by decide, by decide⟩
  unfold gcounter.increment
  rw [if_pos i.isLt]
  show (if i.val = i.val then (c.payload i + 1) % U32 else c.payload i) = 0
  rw [if_pos rfl, h]
  show (U32 - 1 + 1) % U32 = 0
  decide

/-- Witness for the wraparound at the concrete one-slot counter [2^32 − 1]. -/
theorem gcounter_increment_wraps_witness :
    gOv.payload 0 = U32 - 1 ∧ (gOv.increment 0).payload 0 = 0 :=
  ⟨rfl, gcounter_increment_wraps.1 1 gOv 0 rfl⟩
